import Mathlib

/-!
Verification development for the `codex-rs` TUI history-cell module
(`tui/src/history_cell.rs`) and the spinner registry (`tui/src/spinners.rs`).

The Rust source is shallowly embedded: ratatui's styled text becomes the
`Span`/`Line` structures below, machine integers become `Nat`/`Int`, fallible
collaborator calls (shlex joining, ANSI decoding, base64/image decoding, diff
summaries, tool-result formatting) become function parameters collected in the
`Collab` structure, so every theorem holds for all collaborator behaviours.
-/

namespace CodexTui

/-- Foreground colors used by the module (only identity matters here). -/
inductive Color where
  | red
  | green
  | gray
  | blue
  | magenta
  | lightBlue
  | primary
deriving DecidableEq

/-- ratatui style data carried by a span or a line. -/
structure Style where
  fg : Option Color := none
  bold : Bool := false
  dim : Bool := false
  italic : Bool := false
  crossed : Bool := false
deriving DecidableEq

/-- A styled span: a piece of text with one style (`ratatui::text::Span`). -/
structure Span where
  content : String
  style : Style := {}
deriving DecidableEq

/-- A styled line: a sequence of spans plus a line-level style
(`ratatui::text::Line`; the unused alignment field is omitted). -/
structure Line where
  spans : List Span
  style : Style := {}
deriving DecidableEq

/-- `Span::raw` / plain `.into()` conversion of a string. -/
def rawSpan (s : String) : Span := { content := s }

/-- `Span::styled`. -/
def styledSpan (s : String) (st : Style) : Span := { content := s, style := st }

/-- `Line::from(string)`: one unstyled span. -/
def lineOf (s : String) : Line := { spans := [rawSpan s] }

/-- `Line::from(vec![spans...])`. -/
def lineOfSpans (sp : List Span) : Line := { spans := sp }

/-- `Line::from(span)` for a single styled span. -/
def lineStyledSpan (s : String) (st : Style) : Line := { spans := [styledSpan s st] }

/-- `Line::styled(text, style)`: one span carrying the given style. -/
def lineStyled (s : String) (st : Style) : Line := { spans := [styledSpan s st] }

/-- The empty line `Line::from("")`. -/
def line_empty : Line := lineOf ""

/-- Concatenated text of a line's spans (what the user reads). -/
def lineText (l : Line) : String := String.join (l.spans.map Span.content)

/-- Add the DIM modifier to a style (`Modifier::DIM`). -/
def dimStyle (st : Style) : Style := { st with dim := true }

/-- Dim one span (`span.style.add_modifier(Modifier::DIM)`). -/
def dimSpan (s : Span) : Span := { s with style := dimStyle s.style }

/-- Dim every span of a line, as `output_lines` does. -/
def dimSpans (l : Line) : Line := { l with spans := l.spans.map dimSpan }

/-- `.dim()` on a whole line (line-level style, used by patch-failure lines). -/
def dimLine (l : Line) : Line := { l with style := dimStyle l.style }

/-- The pre-built immutable view held by non-animated cells (`TextBlock`). -/
structure TextBlock where
  lines : List Line
deriving DecidableEq

/-! ### Rust `str::lines()` -/

/-- Strip the carriage return that immediately precedes a line feed; `acc` is
the reversed character accumulator of `rustLinesAux`. -/
def finishLine (acc : List Char) : String :=
  match acc with
  | '\r' :: rest => String.mk rest.reverse
  | _ => String.mk acc.reverse

/-- Worker for `rustLines`; `acc` holds the current line reversed. -/
def rustLinesAux : List Char → List Char → List String
  | [], acc => if acc.isEmpty then [] else [String.mk acc.reverse]
  | '\n' :: cs, acc => finishLine acc :: rustLinesAux cs []
  | c :: cs, acc => rustLinesAux cs (c :: acc)

/-- Rust `str::lines()`: split at `\n` (stripping a preceding `\r`), with the
final line ending optional and an empty string yielding no lines. -/
def rustLines (s : String) : List String := rustLinesAux s.data []

/-! ### Word-wrap row counting

Model of ratatui's `Paragraph::line_count` with `Wrap { trim: false }`: the
same no-trim greedy word wrap the paint path (`Paragraph::render`) performs.
Tokens are maximal runs of spaces or non-spaces; a token longer than the
width is hard-broken across rows. -/

/-- Is this character a wrap separator? -/
def isWs (c : Char) : Bool := c = ' '

/-- Split characters into maximal runs of whitespace / non-whitespace. -/
def tokenizeAux : List Char → List Char → List (List Char)
  | [], cur => if cur.isEmpty then [] else [cur.reverse]
  | c :: cs, cur =>
    match cur with
    | [] => tokenizeAux cs [c]
    | d :: _ =>
      if isWs c = isWs d then tokenizeAux cs (c :: cur)
      else cur.reverse :: tokenizeAux cs [c]

/-- Tokenize a line's text for wrapping. -/
def tokenize (s : String) : List (List Char) := tokenizeAux s.data []

/-- Greedy no-trim wrap: fold tokens through (rows so far, current column). -/
def wrapRowsAux (width : Nat) : List (List Char) → Nat → Nat → Nat
  | [], rows, _ => rows
  | t :: ts, rows, cur =>
    let len := t.length
    if cur + len ≤ width then wrapRowsAux width ts rows (cur + len)
    else if len ≤ width then wrapRowsAux width ts (rows + 1) len
    else
      let total := cur + len
      wrapRowsAux width ts (rows + (total - 1) / width)
        ((total - 1) % width + 1)

/-- Number of terminal rows one styled line occupies at `width` (≥ 1). -/
def lineRows (width : Nat) (l : Line) : Nat :=
  wrapRowsAux width (tokenize (lineText l)) 1 0

/-- `Paragraph::line_count(width)` with `Wrap { trim: false }`: 0 for a zero
width, otherwise the sum of each line's wrapped row count. -/
def paragraphLineCount (width : Nat) (lines : List Line) : Nat :=
  if width = 0 then 0 else (lines.map (lineRows width)).sum

/-! ### Data consumed from collaborators -/

/-- `CommandOutput`: snapshot of a finished command. -/
structure CommandOutput where
  exit_code : Int
  stdout : String
  stderr : String
deriving DecidableEq

/-- `codex_core::parse_command::ParsedCommand`, display-relevant fields only
(matches both the source's match arms and §3 of the spec). -/
inductive ParsedCommand where
  | Read (name : String)
  | ListFiles (cmd : List String) (path : Option String)
  | Search (query : Option String) (path : Option String) (cmd : List String)
  | Format
  | Test (cmd : List String)
  | Lint (cmd : List String)
  | Unknown (cmd : List String)
deriving DecidableEq

/-- `mcp_types::EmbeddedResourceResource`: the two resource representations. -/
inductive EmbeddedResourceResource where
  | TextResourceContents (uri : String)
  | BlobResourceContents (uri : String)
deriving DecidableEq

/-- `mcp_types::ContentBlock` (fields not read by the module are omitted). -/
inductive ContentBlock where
  | TextContent (text : String)
  | ImageContent (data : String)
  | AudioContent
  | EmbeddedResource (res : EmbeddedResourceResource)
  | ResourceLink (uri : String)
deriving DecidableEq

/-- `mcp_types::CallToolResult` (only `content` is read). -/
structure CallToolResult where
  content : List ContentBlock
deriving DecidableEq

/-- `McpInvocation`; `arguments` is the already-serialized compact JSON, since
serialization is done by the external `serde_json` collaborator. -/
structure McpInvocation where
  server : String
  tool : String
  arguments : Option String
deriving DecidableEq

/-- Raw bytes handed through the image pipeline. -/
abbrev Bytes := List Nat

/-- External collaborators of `history_cell.rs`, passed as functions so that
every theorem quantifies over their behaviour:
`strip_bash_lc_and_escape`, `shlex::try_join`, `ansi_escape_line`,
`format_and_truncate_tool_result`, `format_duration`,
`base64 decode`, `ImageReader::with_guessed_format`, `ImageReader::decode`,
and `create_diff_summary` (changes are an opaque path/change list). -/
structure Collab where
  escape : List String → String
  try_join : List String → Option String
  ansi : String → Line
  fmt_tool_result : String → Nat → Nat → String
  fmt_duration : Nat → String
  b64_decode : String → Option Bytes
  guess_format : Bytes → Option Bytes
  raster_decode : Bytes → Option Bytes
  create_diff_summary : String → List (String × String) → List Line

/-- `TOOL_CALL_MAX_LINES`. -/
def TOOL_CALL_MAX_LINES : Nat := 5

/-- `shlex_join_safe`: shlex join with a plain space-join fallback. -/
def shlex_join_safe (C : Collab) (command : List String) : String :=
  match C.try_join command with
  | some cmd => cmd
  | none => String.intercalate " " command

/-! ### Output truncator (`output_lines`) -/

/-- The stream `output_lines` selects: stdout on exit 0, stderr otherwise. -/
def selected_stream (o : CommandOutput) : String :=
  if o.exit_code = 0 then o.stdout else o.stderr


/-- One emitted output line: decode ANSI, insert the prefix span
(`"  ⎿ "` on the first line when requested, else `"    "`), dim everything. -/
def emittedLine (C : Collab) (include_angle_pipe : Bool) (idx : Nat)
    (raw : String) : Line :=
  let line := C.ansi raw
  let pre := if idx = 0 ∧ include_angle_pipe then "  ⎿ " else "    "
  dimSpans { line with spans := rawSpan pre :: line.spans }

/-- The synthetic elision marker `"... k lines truncated ..."`, indented and
dimmed exactly as the source builds it. -/
def truncMarker (k : Nat) : Line :=
  dimSpans (lineOfSpans
    [rawSpan "    ", rawSpan ("... " ++ toString k ++ " lines truncated ...")])

/-- `output_lines(output, only_err, include_angle_pipe)`: select stdout for
exit code 0 and stderr otherwise, then emit everything when at most
`2 * TOOL_CALL_MAX_LINES` lines, else head 5 / marker / tail 5. -/
def output_lines (C : Collab) (output : Option CommandOutput)
    (only_err : Bool) (include_angle_pipe : Bool) : List Line :=
  match output with
  | none => []
  | some o =>
    if only_err = true ∧ o.exit_code = 0 then []
    else
      let src_lines := rustLines (selected_stream o)
      let line_count := src_lines.length
      if line_count > 2 * TOOL_CALL_MAX_LINES then
        ((src_lines.take TOOL_CALL_MAX_LINES).enum.map
          (fun p => emittedLine C include_angle_pipe p.1 p.2))
        ++ [truncMarker (line_count - TOOL_CALL_MAX_LINES * 2)]
        ++ ((src_lines.drop (line_count - TOOL_CALL_MAX_LINES)).map
          (fun raw => emittedLine C false 1 raw))
      else
        src_lines.enum.map (fun p => emittedLine C include_angle_pipe p.1 p.2)

/-! ### Small in-file helpers of `history_cell.rs` -/

/-- ASCII lowercase of one character. -/
def asciiLower (c : Char) : Char :=
  if 'A' ≤ c ∧ c ≤ 'Z' then Char.ofNat (c.toNat + 32) else c

/-- Rust `str::eq_ignore_ascii_case`. -/
def eq_ignore_ascii_case (a b : String) : Bool :=
  a.data.map asciiLower == b.data.map asciiLower

/-- `title_case`: uppercase the first character, ASCII-lowercase the rest. -/
def title_case (s : String) : String :=
  match s.data with
  | [] => ""
  | c :: rest => String.mk (c.toUpper :: rest.map asciiLower)

/-- `pretty_provider_name`. -/
def pretty_provider_name (id : String) : String :=
  if eq_ignore_ascii_case id "openai" then "OpenAI" else title_case id

/-! ### The cell model -/

/-- `HistoryCell`: the closed variant type, one constructor per event kind.
`AnimatedWelcome` holds a start timestamp (milliseconds) and the boolean
completion latch; every other variant holds its pre-built view. -/
inductive HistoryCell where
  | AnimatedWelcome (start_time : Nat) (completed : Bool)
  | WelcomeMessage (view : TextBlock)
  | UserPrompt (view : TextBlock)
  | Exec (command : List String) (parsed : List ParsedCommand)
      (output : Option CommandOutput)
  | ActiveMcpToolCall (view : TextBlock)
  | CompletedMcpToolCall (view : TextBlock)
  | CompletedMcpToolCallWithImageOutput (image : Bytes)
  | BackgroundEvent (view : TextBlock)
  | GitDiffOutput (view : TextBlock)
  | ReasoningOutput (view : TextBlock)
  | StatusOutput (view : TextBlock)
  | PromptsOutput (view : TextBlock)
  | ErrorEvent (view : TextBlock)
  | SessionInfo (view : TextBlock)
  | PendingPatch (view : TextBlock)
  | PlanUpdate (view : TextBlock)
  | PatchApplyResult (view : TextBlock)
deriving DecidableEq

/-- Is this the animated variant? -/
def HistoryCell.isAnimated : HistoryCell → Bool
  | .AnimatedWelcome _ _ => true
  | _ => false

/-! ### Command-line formatter (`exec_command_lines` and its two paths) -/

/-- One structured line of the parsed-command path: icon + description. -/
def parsedCommandText (C : Collab) : ParsedCommand → String
  | .Read name => "📖 " ++ name
  | .ListFiles cmd path =>
    match path with
    | some p => "📂 " ++ p
    | none => "📂 " ++ shlex_join_safe C cmd
  | .Search query path cmd =>
    match query, path with
    | some q, some p => "🔎 " ++ q ++ " in " ++ p
    | some q, none => "🔎 " ++ q
    | none, some p => "🔎 " ++ p
    | none, none => "🔎 " ++ shlex_join_safe C cmd
  | .Format => "✨ Formatting"
  | .Test cmd => "🧪 " ++ shlex_join_safe C cmd
  | .Lint cmd => "🧹 " ++ shlex_join_safe C cmd
  | .Unknown cmd => "⌨️ " ++ shlex_join_safe C cmd

/-- `new_parsed_command`: the structured path ("Working" header, one line per
parsed command, errors-only output, trailing blank). -/
def new_parsed_command (C : Collab) (parsed_commands : List ParsedCommand)
    (output : Option CommandOutput) : List Line :=
  [lineOf "⚙︎ Working"]
  ++ parsed_commands.enum.map (fun p =>
      lineOfSpans
        [styledSpan (if p.1 = 0 then "  L " else "    ") { dim := true },
         styledSpan (parsedCommandText C p.2) { fg := some .lightBlue }])
  ++ output_lines C output true false
  ++ [line_empty]

/-- `new_exec_command_generic`: the generic path ("Ran command" banner over
the escaped argv, full output, trailing blank). -/
def new_exec_command_generic (C : Collab) (command : List String)
    (output : Option CommandOutput) : List Line :=
  (match rustLines (C.escape command) with
   | first :: rest =>
     lineOfSpans
       [styledSpan "⚡ Ran command " { fg := some .magenta }, rawSpan first]
     :: rest.map lineOf
   | [] => [lineStyledSpan "⚡ Ran command" { fg := some .magenta }])
  ++ output_lines C output false true
  ++ [line_empty]

/-- `exec_command_lines`: pick the structured path when a parse is available,
the generic path otherwise. -/
def exec_command_lines (C : Collab) (command : List String)
    (parsed : List ParsedCommand) (output : Option CommandOutput) : List Line :=
  match parsed.isEmpty with
  | true => new_exec_command_generic C command output
  | false => new_parsed_command C parsed output

/-! ### Materialization (`plain_lines`) and height (`desired_height`) -/

/-- `HistoryCell::plain_lines`: the pre-built view for ordinary cells, the
fixed 3-line placeholder for `AnimatedWelcome`, a 2-line placeholder for
image results, and the command formatter for `Exec`. -/
def plain_lines (C : Collab) : HistoryCell → List Line
  | .AnimatedWelcome _ _ =>
    [line_empty, lineOf "Welcome to Coder", line_empty]
  | .WelcomeMessage view => view.lines
  | .UserPrompt view => view.lines
  | .BackgroundEvent view => view.lines
  | .GitDiffOutput view => view.lines
  | .ReasoningOutput view => view.lines
  | .StatusOutput view => view.lines
  | .PromptsOutput view => view.lines
  | .ErrorEvent view => view.lines
  | .SessionInfo view => view.lines
  | .CompletedMcpToolCall view => view.lines
  | .PendingPatch view => view.lines
  | .PlanUpdate view => view.lines
  | .PatchApplyResult view => view.lines
  | .ActiveMcpToolCall view => view.lines
  | .Exec command parsed output => exec_command_lines C command parsed output
  | .CompletedMcpToolCallWithImageOutput _ =>
    [lineOf "tool result (image output omitted)", line_empty]

/-- The number of rows the paint path (`render_ref`'s `Paragraph` with
`Wrap { trim: false }`) produces when wrapping the cell's lines at `width`. -/
def rendered_rows (C : Collab) (cell : HistoryCell) (width : Nat) : Nat :=
  paragraphLineCount width (plain_lines C cell)

/-- `HistoryCell::desired_height`: fixed 18 for the animation canvas;
otherwise `Paragraph::line_count` of `plain_lines`, converted to `u16` with
`try_into().unwrap_or(0)` (so a count above 65535 collapses to 0). -/
def desired_height (C : Collab) (cell : HistoryCell) (width : Nat) : Nat :=
  if cell.isAnimated then 18
  else if paragraphLineCount width (plain_lines C cell) ≤ 65535 then
    paragraphLineCount width (plain_lines C cell)
  else 0

/-! ### Animated welcome state machine (`render_ref`, AnimatedWelcome arm)

Wall-clock elapsed time is in milliseconds; the f32 progress
`elapsed.as_secs_f32() / animation_duration.as_secs_f32()` is modelled
exactly in `ℚ` as `elapsed / 2000`. The returned pair is the latch value
after the call and the progress the frame is rendered at. -/

/-- The 2-second animation duration, in milliseconds. -/
def animation_duration_ms : Nat := 2000

/-- One render call: latch after the call and rendered progress. -/
def render_animated (completed : Bool) (elapsed_ms : Nat) : Bool × ℚ :=
  if elapsed_ms < animation_duration_ms ∧ completed = false then
    (completed, (elapsed_ms : ℚ) / 2000)
  else
    (true, 1)

/-- Fold a sequence of render calls through the latch. -/
def render_seq (c : Bool) (es : List Nat) : Bool :=
  es.foldl (fun st e => (render_animated st e).1) c

/-! ### Session info, user prompt -/

/-- Modelled from the spec: `SlashCommand::{Browser,Plan,Solve,Code,Reasoning}
::description()` live in `slash_command.rs`, which is not part of the given
sources; only the description strings are consumed. -/
structure SlashDescs where
  browser : String
  plan : String
  solve : String
  code : String
  reasoning : String

/-- `new_session_info`. -/
def new_session_info (d : SlashDescs) (config_model : String)
    (event_model : String) (is_first_event : Bool) : HistoryCell :=
  if is_first_event then
    .WelcomeMessage ⟨[
      lineStyledSpan "" { dim := true },
      lineStyledSpan " Popular commands:" { dim := true },
      lineStyledSpan (" /browser <url> - " ++ d.browser) { dim := true },
      lineStyledSpan (" /plan - " ++ d.plan) { dim := true },
      lineStyledSpan (" /solve - " ++ d.solve) { dim := true },
      lineStyledSpan (" /code - " ++ d.code) { dim := true },
      lineStyledSpan (" /reasoning - " ++ d.reasoning) { dim := true },
      lineStyledSpan "" { dim := true }]⟩
  else if config_model = event_model then
    .SessionInfo ⟨[]⟩
  else
    .SessionInfo ⟨[
      lineStyledSpan "model changed:" { fg := some .magenta, bold := true },
      lineOf ("requested: " ++ config_model),
      lineOf ("used: " ++ event_model),
      line_empty]⟩

/-- `new_user_prompt`. -/
def new_user_prompt (message : String) : HistoryCell :=
  .UserPrompt ⟨
    [lineStyledSpan "user" { fg := some .primary, bold := true }]
    ++ (rustLines message).map lineOf
    ++ [line_empty]⟩

/-- `new_active_exec_command`. -/
def new_active_exec_command (command : List String)
    (parsed : List ParsedCommand) : HistoryCell :=
  .Exec command parsed none

/-- `new_completed_exec_command`. -/
def new_completed_exec_command (command : List String)
    (parsed : List ParsedCommand) (output : CommandOutput) : HistoryCell :=
  .Exec command parsed (some output)

/-! ### Tool-result formatter -/

/-- `format_mcp_invocation`: `server.tool(arguments-as-compact-text)`. -/
def format_mcp_invocation (invocation : McpInvocation) : Line :=
  lineOfSpans
    [styledSpan invocation.server { fg := some .blue },
     rawSpan ".",
     styledSpan invocation.tool { fg := some .blue },
     rawSpan "(",
     styledSpan (invocation.arguments.getD "") { fg := some .gray },
     rawSpan ")"]

/-- `new_active_mcp_tool_call`. -/
def new_active_mcp_tool_call (invocation : McpInvocation) : HistoryCell :=
  .ActiveMcpToolCall ⟨[
    lineOfSpans
      [styledSpan "tool" { fg := some .magenta },
       styledSpan " running..." { dim := true }],
    format_mcp_invocation invocation,
    line_empty]⟩

/-- `try_new_completed_mcp_tool_call_with_image_output`: when the first
content block of a successful result is an image, run
base64-decode → guess container format → raster-decode; any failure (or a
non-image / absent first block, or a failed result) yields `none`. -/
def try_new_completed_mcp_tool_call_with_image_output (C : Collab)
    (result : Except String CallToolResult) : Option HistoryCell :=
  match result with
  | .ok r =>
    match r.content.head? with
    | some (.ImageContent data) =>
      match C.b64_decode data with
      | none => none
      | some raw_data =>
        match C.guess_format raw_data with
        | none => none
        | some reader =>
          match C.raster_decode reader with
          | none => none
          | some image => some (.CompletedMcpToolCallWithImageOutput image)
    | _ => none
  | .error _ => none

/-- Per-block display text of the non-image completed-tool-call path. -/
def tool_block_text (C : Collab) (num_cols : Nat) : ContentBlock → String
  | .TextContent text =>
    C.fmt_tool_result text TOOL_CALL_MAX_LINES num_cols
  | .ImageContent _ => "<image content>"
  | .AudioContent => "<audio content>"
  | .EmbeddedResource (.TextResourceContents uri) => "embedded resource: " ++ uri
  | .EmbeddedResource (.BlobResourceContents uri) => "embedded resource: " ++ uri
  | .ResourceLink uri => "link: " ++ uri

/-- The title line `tool success|failed, duration: …`. -/
def tool_title_line (C : Collab) (duration : Nat) (success : Bool) : Line :=
  lineOfSpans
    [styledSpan "tool" { fg := some .magenta },
     rawSpan " ",
     (if success then styledSpan "success" { fg := some .green }
      else styledSpan "failed" { fg := some .red }),
     styledSpan (", duration: " ++ C.fmt_duration duration) { fg := some .gray }]

/-- The bold-red error line of a failed tool call. -/
def tool_error_line (e : String) : Line :=
  lineOfSpans
    [styledSpan "Error: " { fg := some .red, bold := true }, rawSpan e]

/-- `new_completed_mcp_tool_call`: dispatch to the image cell when the image
pipeline succeeds, otherwise build the ordinary completed-tool-call view. -/
def new_completed_mcp_tool_call (C : Collab) (num_cols : Nat)
    (invocation : McpInvocation) (duration : Nat) (success : Bool)
    (result : Except String CallToolResult) : HistoryCell :=
  match try_new_completed_mcp_tool_call_with_image_output C result with
  | some cell => cell
  | none =>
    let base := [tool_title_line C duration success,
                 format_mcp_invocation invocation]
    match result with
    | .ok r =>
      .CompletedMcpToolCall ⟨
        base
        ++ (if r.content.isEmpty then []
            else line_empty ::
              r.content.map (fun b =>
                lineStyled (tool_block_text C num_cols b) { fg := some .gray }))
        ++ [line_empty]⟩
    | .error e =>
      .CompletedMcpToolCall ⟨base ++ [tool_error_line e]⟩

/-! ### Slash-command outputs, errors, background events -/

/-- `new_background_event`. -/
def new_background_event (C : Collab) (message : String) : HistoryCell :=
  .BackgroundEvent ⟨
    [lineStyledSpan "event" { dim := true }]
    ++ (rustLines message).map (fun l => dimLine (C.ansi l))
    ++ [line_empty]⟩

/-- `new_diff_output`. -/
def new_diff_output (C : Collab) (message : String) : HistoryCell :=
  .GitDiffOutput ⟨
    [lineStyledSpan "/diff" { fg := some .magenta }]
    ++ (if (message.trim).isEmpty then
          [lineStyledSpan "No changes detected." { italic := true }]
        else (rustLines message).map C.ansi)
    ++ [line_empty]⟩

/-- `new_reasoning_output`; `effort` is the displayed effort string. -/
def new_reasoning_output (effort : String) : HistoryCell :=
  .ReasoningOutput ⟨[
    lineStyledSpan "/reasoning" { fg := some .magenta },
    lineOfSpans
      [rawSpan "Reasoning effort changed to: ",
       styledSpan effort { bold := true }],
    line_empty]⟩

/-- Stored ChatGPT credentials the status block may discover (`auth.json`
tokens; `none` when the file is unreadable or has no tokens). -/
structure AuthInfo where
  email : Option String
  openai_api_key : Option String
  chatgpt_plan_type : Option String

/-- Token usage snapshot, with the collaborator-computed aggregates. -/
structure TokenUsageInfo where
  non_cached_input : Nat
  cached_input_tokens : Option Nat
  output_tokens : Nat
  blended_total : Nat

/-- The account block of `/status` (present when ChatGPT tokens exist). -/
def status_account_lines (a : AuthInfo) : List Line :=
  [lineOfSpans [rawSpan "👤 ", styledSpan "Account" { bold := true }],
   lineOf "  • Signed in with ChatGPT"]
  ++ (match a.email with
      | some email => [lineOfSpans [rawSpan "  • Login: ", rawSpan email]]
      | none => [])
  ++ [(match a.openai_api_key with
      | some key =>
        if key ≠ "" then
          lineOf "  • Using API key. Run codex login to use ChatGPT plan"
        else
          lineOfSpans
            [rawSpan "  • Plan: ",
             rawSpan ((a.chatgpt_plan_type.map title_case).getD "Unknown")]
      | none =>
        lineOfSpans
          [rawSpan "  • Plan: ",
           rawSpan ((a.chatgpt_plan_type.map title_case).getD "Unknown")])]
  ++ [line_empty]

/-- `new_status_output`; the config-summary lookup, home-relativized cwd and
sandbox name are computed by external collaborators and passed in. -/
def new_status_output (lookup : String → String) (cwd_str : String)
    (sandbox_name : String) (auth : Option AuthInfo) (model : String)
    (model_provider_id : String) (usage : TokenUsageInfo) : HistoryCell :=
  .StatusOutput ⟨
    [lineStyledSpan "/status" { fg := some .magenta },
     lineOfSpans [rawSpan "📂 ", styledSpan "Workspace" { bold := true }],
     lineOfSpans [rawSpan "  • Path: ", rawSpan cwd_str],
     lineOfSpans [rawSpan "  • Approval Mode: ", rawSpan (lookup "approval")],
     lineOfSpans [rawSpan "  • Sandbox: ", rawSpan sandbox_name],
     line_empty]
    ++ (match auth with
        | some a => status_account_lines a
        | none => [])
    ++ [lineOfSpans [rawSpan "🧠 ", styledSpan "Model" { bold := true }],
        lineOfSpans [rawSpan "  • Name: ", rawSpan model],
        lineOfSpans
          [rawSpan "  • Provider: ",
           rawSpan (pretty_provider_name model_provider_id)]]
    ++ (if lookup "reasoning effort" ≠ "" then
          [lineOfSpans
            [rawSpan "  • Reasoning Effort: ",
             rawSpan (title_case (lookup "reasoning effort"))]]
        else [])
    ++ (if lookup "reasoning summaries" ≠ "" then
          [lineOfSpans
            [rawSpan "  • Reasoning Summaries: ",
             rawSpan (title_case (lookup "reasoning summaries"))]]
        else [])
    ++ [line_empty,
        lineOfSpans [rawSpan "📊 ", styledSpan "Token Usage" { bold := true }],
        lineOfSpans
          ([rawSpan "  • Input: ", rawSpan (toString usage.non_cached_input)]
           ++ (match usage.cached_input_tokens with
               | some cached =>
                 if cached > 0 then
                   [rawSpan (" (+ " ++ toString cached ++ " cached)")]
                 else []
               | none => [])),
        lineOfSpans [rawSpan "  • Output: ", rawSpan (toString usage.output_tokens)],
        lineOfSpans [rawSpan "  • Total: ", rawSpan (toString usage.blended_total)],
        line_empty]⟩

/-- `new_prompts_output`. -/
def new_prompts_output : HistoryCell :=
  .PromptsOutput ⟨[
    lineStyledSpan "/prompts" { fg := some .magenta },
    line_empty,
    lineOf " 1. Explain this codebase",
    lineOf " 2. Summarize recent commits",
    lineOf " 3. Implement \x7bfeature\x7d",
    lineOf " 4. Find and fix a bug in @filename",
    lineOf " 5. Write tests for @filename",
    lineOf " 6. Improve documentation in @filename",
    line_empty]⟩

/-- `new_error_event`. -/
def new_error_event (message : String) : HistoryCell :=
  .ErrorEvent ⟨[
    lineOfSpans
      [styledSpan "🖐 " { fg := some .red, bold := true }, rawSpan message],
    line_empty]⟩

/-! ### Plan update -/

/-- `StepStatus`. -/
inductive StepStatus where
  | Pending
  | InProgress
  | Completed
deriving DecidableEq

/-- `PlanItemArg`. -/
structure PlanItemArg where
  step : String
  status : StepStatus
deriving DecidableEq

/-- `UpdatePlanArgs`. -/
structure UpdatePlanArgs where
  explanation : Option String
  plan : List PlanItemArg
deriving DecidableEq

/-- Count of completed steps (`matches!(p.status, StepStatus::Completed)`). -/
def completed_count (plan : List PlanItemArg) : Nat :=
  (plan.filter (fun p =>
    match p.status with
    | .Completed => true
    | _ => false)).length

/-- `"█".repeat(n)` for a single character. -/
def charRepeat (c : Char) (n : Nat) : String := String.mk (List.replicate n c)

/-- The filled-glyph count of the plan progress bar (bar width 10). -/
def plan_filled (completed total : Nat) : Nat :=
  if total > 0 then (completed * 10 + total / 2) / total else 0

/-- The bar spans: a green run of `█` when non-empty, a gray run of `░` when
non-empty, exactly as the header pushes them. -/
def plan_bar (completed total : Nat) : List Span :=
  (if plan_filled completed total > 0 then
    [styledSpan (charRepeat '█' (plan_filled completed total))
      { fg := some .green }]
   else [])
  ++ (if 10 - plan_filled completed total > 0 then
    [styledSpan (charRepeat '░' (10 - plan_filled completed total))
      { fg := some .gray }]
   else [])

/-- The plan-update header line. -/
def plan_header_line (completed total : Nat) : Line :=
  lineOfSpans
    ([rawSpan "📋",
      styledSpan " Updated" { fg := some .magenta, bold := true },
      rawSpan " to do list ["]
     ++ plan_bar completed total
     ++ [rawSpan "] ",
         rawSpan (toString completed ++ "/" ++ toString total)])

/-- One checkbox step line. -/
def plan_step_line (idx : Nat) (p : PlanItemArg) : Line :=
  let pair : Span × Span :=
    match p.status with
    | .Completed =>
      (styledSpan "✔" { fg := some .green },
       styledSpan p.step { fg := some .gray, dim := true, crossed := true })
    | .InProgress =>
      (rawSpan "□", styledSpan p.step { fg := some .blue, bold := true })
    | .Pending =>
      (rawSpan "□", styledSpan p.step { fg := some .gray, dim := true })
  lineOfSpans
    [rawSpan (if idx = 0 then "  ⎿ " else "    "),
     pair.1, rawSpan " ", pair.2]

/-- `new_plan_update`. -/
def new_plan_update (update : UpdatePlanArgs) : HistoryCell :=
  let total := update.plan.length
  let completed := completed_count update.plan
  .PlanUpdate ⟨
    [plan_header_line completed total]
    ++ (match update.explanation.bind (fun s =>
          let t := s.trim
          if t.isEmpty then none else some t) with
        | some expl =>
          lineStyledSpan "note" { fg := some .gray, italic := true }
          :: (rustLines expl).map (fun l => { lineOf l with style := { fg := some .gray } })
        | none => [])
    ++ (if update.plan.isEmpty then
          [lineStyledSpan "(no steps provided)" { fg := some .gray, italic := true }]
        else update.plan.enum.map (fun p => plan_step_line p.1 p.2))
    ++ [line_empty]⟩

/-! ### Patch events -/

/-- `PatchEventType`. -/
inductive PatchEventType where
  | ApprovalRequest
  | ApplyBegin (auto_approved : Bool)
deriving DecidableEq

/-- `new_patch_event`; the file-change map is an opaque path/change list
handed to the external `create_diff_summary` collaborator. -/
def new_patch_event (C : Collab) (event_type : PatchEventType)
    (changes : List (String × String)) : HistoryCell :=
  match event_type with
  | .ApplyBegin false =>
    .PendingPatch ⟨[
      lineStyledSpan "✏️ Applying patch" { fg := some .magenta, bold := true },
      line_empty]⟩
  | .ApprovalRequest =>
    .PendingPatch ⟨C.create_diff_summary "proposed patch" changes ++ [line_empty]⟩
  | .ApplyBegin true =>
    .PendingPatch ⟨C.create_diff_summary "✏️ Applying patch" changes ++ [line_empty]⟩

/-- `new_patch_apply_failure`: failure title, up to 5 dimmed stderr lines
(first marked), then a blank and a `"... +k lines"` summary when more remain. -/
def new_patch_apply_failure (C : Collab) (stderr : String) : HistoryCell :=
  .PatchApplyResult ⟨
    [lineStyledSpan "✘ Failed to apply patch" { fg := some .magenta, bold := true }]
    ++ (if ¬(stderr.trim).isEmpty then
          let ls := rustLines stderr
          ((ls.take TOOL_CALL_MAX_LINES).enum.map (fun p =>
            dimLine (C.ansi ((if p.1 = 0 then "  ⎿ " else "    ") ++ p.2))))
          ++ (let remaining := ls.length - TOOL_CALL_MAX_LINES
              if remaining > 0 then
                [line_empty,
                 dimLine (lineOf ("... +" ++ toString remaining ++ " lines"))]
              else [])
        else [])
    ++ [line_empty]⟩

/-- `new_text_line`: wrap one pre-built line verbatim. -/
def new_text_line (l : Line) : HistoryCell :=
  .BackgroundEvent ⟨[l]⟩

/-! ### Auxiliary definitions used by the statements -/

/-- Concatenated text of a span list. -/
def spans_text (sp : List Span) : String := String.join (sp.map Span.content)

/-- Occurrences of a character in a string. -/
def countChar (s : String) (c : Char) : Nat := s.data.count c

/-- The transcript separator invariant: the last line exists and is blank. -/
def endsWithBlank (ls : List Line) : Prop :=
  ∃ l, ls.getLast? = some l ∧ lineText l = ""

/-- ASCII-lowercased character key of a string, for case-insensitive lookup. -/
def lowerKey (s : String) : List Char := s.data.map asciiLower

/-- A concrete collaborator instantiation used to evaluate witnesses. -/
def collab0 : Collab where
  escape := fun c => String.intercalate " " c
  try_join := fun c => some (String.intercalate " " c)
  ansi := fun s => lineOf s
  fmt_tool_result := fun s _ _ => s
  fmt_duration := fun n => toString n ++ "ms"
  b64_decode := fun _ => none
  guess_format := fun b => some b
  raster_decode := fun b => some b
  create_diff_summary := fun t _ => [lineOf t]

/-- A collaborator whose image pipeline succeeds exactly on data "AAAA". -/
def collabImg : Collab :=
  { collab0 with
    b64_decode := fun s => if s = "AAAA" then some [0] else none
    guess_format := fun b => some b
    raster_decode := fun b => some (b ++ [1]) }

/-- Concrete slash-command descriptions for witnesses. -/
def descs0 : SlashDescs :=
  { browser := "a", plan := "b", solve := "c", code := "d", reasoning := "e" }

/-- A concrete invocation for witnesses. -/
def inv0 : McpInvocation := { server := "srv", tool := "t", arguments := none }

/-- A non-animated cell whose view wraps to 65536 rows at any width:
65536 blank lines. -/
def huge_cell : HistoryCell := .UserPrompt ⟨List.replicate 65536 line_empty⟩

end CodexTui

namespace CodexTui.spinners

/-- A spinner preset: name, frames, interval in milliseconds. -/
structure Spinner where
  name : String
  frames : List String
  interval_ms : Nat
deriving DecidableEq

/-- `DIAMOND`. -/
def DIAMOND : Spinner := { name := "diamond", frames := ["◇", "◆", "◇"], interval_ms := 150 }

/-- `DOTS`. -/
def DOTS : Spinner := { name := "dots", frames := ["⠋", "⠙", "⠹", "⠸", "⠼", "⠴", "⠦", "⠧", "⠇", "⠏"], interval_ms := 80 }

/-- `DOTS2`. -/
def DOTS2 : Spinner := { name := "dots2", frames := ["⠋", "⠙", "⠚", "⠞", "⠖", "⠦", "⠴", "⠲", "⠳", "⠓"], interval_ms := 80 }

/-- `LINE`. -/
def LINE : Spinner := { name := "line", frames := ["-", "\\", "|", "/"], interval_ms := 100 }

/-- `PIPE`. -/
def PIPE : Spinner := { name := "pipe", frames := ["┤", "┘", "┴", "└", "├", "┌", "┬", "┐"], interval_ms := 100 }

/-- `STAR`. -/
def STAR : Spinner := { name := "star", frames := ["✶", "✸", "✹", "✺", "✹", "✷"], interval_ms := 70 }

/-- `SIMPLE_DOTS`. -/
def SIMPLE_DOTS : Spinner := { name := "simpleDotsScrolling", frames := [".  ", ".. ", "...", " ..", "  .", "   "], interval_ms := 200 }

/-- `BOUNCING_BAR`. -/
def BOUNCING_BAR : Spinner := { name := "bouncingBar", frames := ["[    ]", "[=   ]", "[==  ]", "[=== ]", "[ ===]", "[  ==]", "[   =]", "[    ]", "[   =]", "[  ==]", "[ ===]", "[====]", "[=== ]", "[==  ]", "[=   ]"], interval_ms := 80 }

/-- `BOUNCING_BALL`. -/
def BOUNCING_BALL : Spinner := { name := "bouncingBall", frames := ["( ●    )", "(  ●   )", "(   ●  )", "(    ● )", "(     ●)", "(    ● )", "(   ●  )", "(  ●   )", "( ●    )", "(●     )"], interval_ms := 80 }

/-- `TOGGLE`. -/
def TOGGLE : Spinner := { name := "toggle", frames := ["⊶", "⊷"], interval_ms := 120 }

/-- `HAMBURGER`. -/
def HAMBURGER : Spinner := { name := "hamburger", frames := ["☱", "☲", "☴"], interval_ms := 100 }

/-- `GROW_VERT`. -/
def GROW_VERT : Spinner := { name := "growVertical", frames := ["▁", "▃", "▄", "▅", "▆", "▇", "▆", "▅", "▄", "▃"], interval_ms := 120 }

/-- `ARROW3`. -/
def ARROW3 : Spinner := { name := "arrow3", frames := ["←", "↖", "↑", "↗", "→", "↘", "↓", "↙"], interval_ms := 80 }

/-- `CLOCK`. -/
def CLOCK : Spinner := { name := "clock", frames := ["🕛", "🕐", "🕑", "🕒", "🕓", "🕔", "🕕", "🕖", "🕗", "🕘", "🕙", "🕚"], interval_ms := 100 }

/-- `ALL`: the registry, in source order. -/
def ALL : List Spinner :=
  [DIAMOND, DOTS, DOTS2, LINE, PIPE, STAR, SIMPLE_DOTS, BOUNCING_BAR,
   BOUNCING_BALL, TOGGLE, HAMBURGER, GROW_VERT, ARROW3, CLOCK]

/-- `default_name()`. -/
def default_name : String := DIAMOND.name

/-- `list()`. -/
def list : List String := ALL.map Spinner.name

/-- `get(name)`: first case-insensitive match, falling back to `DIAMOND`. -/
def get (name : String) : Spinner :=
  match ALL.find? (fun s => eq_ignore_ascii_case s.name name) with
  | some s => s
  | none => DIAMOND

end CodexTui.spinners

namespace CodexTui

/-! ## Helper lemmas -/

/-- A list ending in a textually blank line satisfies `endsWithBlank`. -/
theorem endsWithBlank_concat (xs : List Line) (b : Line) (hb : lineText b = "") :
    endsWithBlank (xs ++ [b]) :=
  ⟨b, by simp, hb⟩

/-- `line_empty` is textually blank. -/
theorem lineText_line_empty : lineText line_empty = "" := rfl

/-- A blank line takes one wrapped row at any width. -/
theorem lineRows_line_empty (w : Nat) : lineRows w line_empty = 1 := rfl

/-- Wrap count of `n` blank lines at a positive width is `n`. -/
theorem paragraphLineCount_replicate_blank (w n : Nat) (hw : w ≠ 0) :
    paragraphLineCount w (List.replicate n line_empty) = n := by
  simp [paragraphLineCount, hw, List.map_replicate, lineRows_line_empty,
    List.sum_replicate]

end CodexTui

namespace CodexTui

/-! ## Claim theorems -/

/-- Claim C9: for an AnimatedWelcome cell, `plain_lines` always returns the
same 3 fixed lines regardless of elapsed time, latch state or collaborators,
and `desired_height` always returns 18 regardless of the width argument. -/
theorem animated_welcome_fixed_lines_and_height (C : Collab) (t : Nat)
    (b : Bool) (w : Nat) :
    plain_lines C (.AnimatedWelcome t b)
      = [line_empty, lineOf "Welcome to Coder", line_empty]
    ∧ (plain_lines C (.AnimatedWelcome t b)).length = 3
    ∧ desired_height C (.AnimatedWelcome t b) w = 18 :=
  ⟨rfl, rfl, rfl⟩

/-- Claim C3: the AnimatedWelcome completion latch is monotonic and
write-once. A render before the 2000 ms duration with the latch unset leaves
the latch unset and renders at progress `elapsed/duration ∈ [0,1)`; any other
render sets the latch (idempotently) and renders the final frame (progress 1);
once the latch is set, every subsequent render — any number of them, at any
later time — keeps it set and renders progress 1. -/
theorem animated_welcome_latch (c : Bool) (e : Nat) :
    (c = false → e < 2000 →
      render_animated c e = (false, (e : ℚ) / 2000)
      ∧ 0 ≤ (e : ℚ) / 2000 ∧ (e : ℚ) / 2000 < 1)
    ∧ (c = true ∨ 2000 ≤ e → render_animated c e = (true, 1))
    ∧ (∀ e2 : Nat, render_animated true e2 = (true, 1))
    ∧ (∀ es : List Nat, render_seq true es = true) := by
  refine ⟨?_, ?_, ?_, ?_⟩
  · intro hc he
    subst hc
    refine ⟨by simp [render_animated, animation_duration_ms, he], by positivity, ?_⟩
    rw [div_lt_one (by norm_num)]
    exact_mod_cast he
  · rintro (hc | he)
    · subst hc
      simp [render_animated]
    · have : ¬ e < animation_duration_ms := by
        simp [animation_duration_ms]
        omega
      simp [render_animated, this]
  · intro e2
    simp [render_animated]
  · intro es
    induction es with
    | nil => rfl
    | cons h t ih =>
      have hstep : (render_animated true h).1 = true := by
        simp [render_animated]
      simpa [render_seq, List.foldl, hstep] using ih

/-- Witness for C3 at concrete inputs. -/
theorem animated_welcome_latch_witness :
    render_animated false 1000 = (false, (1000 : ℚ) / 2000)
    ∧ render_animated false 2500 = (true, 1)
    ∧ render_animated true 100 = (true, 1)
    ∧ render_seq true [0, 5000, 10] = true :=
  ⟨((animated_welcome_latch false 1000).1 rfl (by norm_num)).1,
   (animated_welcome_latch false 2500).2.1 (Or.inr (by norm_num)),
   (animated_welcome_latch true 100).2.2.1 100,
   (animated_welcome_latch true 0).2.2.2 [0, 5000, 10]⟩

/-- Claim C1 (amended): for every non-AnimatedWelcome cell and every width,
`desired_height` equals the row count the paint path's no-trim word wrap
produces for `plain_lines` — provided that row count fits in `u16`
(is at most 65535); the `try_into().unwrap_or(0)` conversion collapses
larger counts to 0. -/
theorem desired_height_matches_paint_rows (C : Collab) (cell : HistoryCell)
    (w : Nat) (hA : cell.isAnimated = false)
    (hfit : rendered_rows C cell w ≤ 65535) :
    desired_height C cell w = rendered_rows C cell w := by
  unfold rendered_rows at hfit
  simp [desired_height, hA, rendered_rows, hfit]

/-- Witness for C1 at a concrete cell and width. -/
theorem desired_height_matches_paint_rows_witness :
    desired_height collab0 (new_user_prompt "hello world") 6
      = rendered_rows collab0 (new_user_prompt "hello world") 6
    ∧ rendered_rows collab0 (new_user_prompt "hello world") 6 = 4 :=
  ⟨desired_height_matches_paint_rows collab0 (new_user_prompt "hello world") 6
    (by decide) (by decide),
   by decide⟩

/-- Counterexample to C1 as stated: a cell of 65536 blank lines wraps to
65536 rows at width 80, but `desired_height` reports 0 because the row count
does not fit in `u16`. -/
theorem desired_height_u16_counterexample :
    HistoryCell.isAnimated huge_cell = false
    ∧ rendered_rows collab0 huge_cell 80 = 65536
    ∧ desired_height collab0 huge_cell 80 = 0
    ∧ desired_height collab0 huge_cell 80 ≠ rendered_rows collab0 huge_cell 80 := by
  have hrows : rendered_rows collab0 huge_cell 80 = 65536 := by
    show paragraphLineCount 80 (plain_lines collab0 huge_cell) = 65536
    rw [show plain_lines collab0 huge_cell = List.replicate 65536 line_empty from rfl]
    exact paragraphLineCount_replicate_blank 80 65536 (by norm_num)
  have hh : desired_height collab0 huge_cell 80 = 0 := by
    have hp : paragraphLineCount 80 (plain_lines collab0 huge_cell) = 65536 := hrows
    unfold desired_height
    rw [show HistoryCell.isAnimated huge_cell = false from rfl, hp]
    norm_num
  refine ⟨rfl, hrows, hh, ?_⟩
  rw [hh, hrows]
  norm_num

end CodexTui

namespace CodexTui

/-- Claim C2: letting `L` be the raw line count of the selected stream, a
non-suppressed `output_lines` call emits exactly `L` lines — each one a
prefixed, dimmed rendering of the corresponding source line, with no
synthetic marker — when `L ≤ 10`; when `L > 10` it emits exactly 11 lines:
the first 5 source lines, one elision marker whose count is exactly
`L - 10`, and the last 5 source lines. -/
theorem output_lines_truncation (C : Collab) (o : CommandOutput)
    (only_err include_angle_pipe : Bool)
    (h : ¬(only_err = true ∧ o.exit_code = 0)) :
    ((rustLines (selected_stream o)).length ≤ 10 →
      output_lines C (some o) only_err include_angle_pipe
        = (rustLines (selected_stream o)).enum.map
            (fun p => emittedLine C include_angle_pipe p.1 p.2)
      ∧ (output_lines C (some o) only_err include_angle_pipe).length
        = (rustLines (selected_stream o)).length)
    ∧ (10 < (rustLines (selected_stream o)).length →
      output_lines C (some o) only_err include_angle_pipe
        = ((rustLines (selected_stream o)).take 5).enum.map
            (fun p => emittedLine C include_angle_pipe p.1 p.2)
          ++ [truncMarker ((rustLines (selected_stream o)).length - 10)]
          ++ ((rustLines (selected_stream o)).drop
              ((rustLines (selected_stream o)).length - 5)).map
            (fun raw => emittedLine C false 1 raw)
      ∧ (output_lines C (some o) only_err include_angle_pipe).length = 11) := by
  have key : output_lines C (some o) only_err include_angle_pipe
      = (if (rustLines (selected_stream o)).length > 2 * TOOL_CALL_MAX_LINES
         then ((rustLines (selected_stream o)).take TOOL_CALL_MAX_LINES).enum.map
                (fun p => emittedLine C include_angle_pipe p.1 p.2)
              ++ [truncMarker ((rustLines (selected_stream o)).length
                  - TOOL_CALL_MAX_LINES * 2)]
              ++ ((rustLines (selected_stream o)).drop
                  ((rustLines (selected_stream o)).length - TOOL_CALL_MAX_LINES)).map
                (fun raw => emittedLine C false 1 raw)
         else (rustLines (selected_stream o)).enum.map
                (fun p => emittedLine C include_angle_pipe p.1 p.2)) := by
    simp only [output_lines]
    rw [if_neg h]
  constructor
  · intro hle
    have hgt : ¬((rustLines (selected_stream o)).length
        > 2 * TOOL_CALL_MAX_LINES) := by
      simp only [TOOL_CALL_MAX_LINES]
      omega
    rw [key, if_neg hgt]
    exact ⟨rfl, by simp⟩
  · intro hgt
    have hgt' : (rustLines (selected_stream o)).length
        > 2 * TOOL_CALL_MAX_LINES := by
      simp only [TOOL_CALL_MAX_LINES]
      omega
    rw [key, if_pos hgt']
    refine ⟨rfl, ?_⟩
    have h5 : ((rustLines (selected_stream o)).take TOOL_CALL_MAX_LINES).length
        = 5 := by
      simp only [TOOL_CALL_MAX_LINES, List.length_take]
      omega
    have hd : ((rustLines (selected_stream o)).drop
        ((rustLines (selected_stream o)).length - TOOL_CALL_MAX_LINES)).length
        = 5 := by
      simp only [TOOL_CALL_MAX_LINES, List.length_drop]
      omega
    simp only [List.length_append, List.length_map, List.enum_length,
      List.length_singleton, h5, hd]

/-- Witness for C2: a 3-line stream emits 3 lines; a 12-line stream emits 11
lines whose sixth entry is the marker for 2 elided lines. -/
theorem output_lines_truncation_witness :
    (output_lines collab0 (some ⟨0, "l1\nl2\nl3", "x"⟩) false true).length = 3
    ∧ (output_lines collab0
        (some ⟨0, "1\n2\n3\n4\n5\n6\n7\n8\n9\n10\n11\n12", "x"⟩) false true).length = 11
    ∧ (output_lines collab0
        (some ⟨0, "1\n2\n3\n4\n5\n6\n7\n8\n9\n10\n11\n12", "x"⟩) false true)[5]?
      = some (truncMarker 2) := by
  have h1 := (output_lines_truncation collab0 ⟨0, "l1\nl2\nl3", "x"⟩ false true
    (by simp)).1 (by decide)
  have h2 := (output_lines_truncation collab0
    ⟨0, "1\n2\n3\n4\n5\n6\n7\n8\n9\n10\n11\n12", "x"⟩ false true
    (by simp)).2 (by decide)
  refine ⟨h1.2.trans (by decide), h2.2, ?_⟩
  rw [h2.1]
  decide

/-- Claim C5: the generic command path with exit code 0 shows only stdout
lines (the result does not depend on stderr), and with a nonzero exit code
shows only stderr lines (the result does not depend on stdout); in
errors-only mode an exit code of 0 yields no output lines, and an empty
selected stream yields no output lines. -/
theorem exec_output_stream_selection :
    (∀ (C : Collab) (out err err2 : String) (iap : Bool),
      output_lines C (some ⟨0, out, err⟩) false iap
        = output_lines C (some ⟨0, out, err2⟩) false iap)
    ∧ (∀ (C : Collab) (ec : Int) (out out2 err : String) (iap : Bool),
      ec ≠ 0 →
      output_lines C (some ⟨ec, out, err⟩) false iap
        = output_lines C (some ⟨ec, out2, err⟩) false iap)
    ∧ (∀ (C : Collab) (o : CommandOutput) (iap : Bool),
      o.exit_code = 0 → output_lines C (some o) true iap = [])
    ∧ (∀ (C : Collab) (o : CommandOutput) (oe iap : Bool),
      selected_stream o = "" → output_lines C (some o) oe iap = []) := by
  refine ⟨?_, ?_, ?_, ?_⟩
  · intro C out err err2 iap
    simp [output_lines, selected_stream]
  · intro C ec out out2 err iap hec
    simp [output_lines, selected_stream, hec]
  · intro C o iap h
    simp [output_lines, h]
  · intro C o oe iap h
    by_cases hsup : oe = true ∧ o.exit_code = 0
    · simp [output_lines, hsup]
    · simp [output_lines, if_neg hsup, h, rustLines, rustLinesAux]

/-- Witness for C5 at concrete streams. -/
theorem exec_output_stream_selection_witness :
    output_lines collab0 (some ⟨0, "o", "e1"⟩) false true
      = output_lines collab0 (some ⟨0, "o", "e2"⟩) false true
    ∧ output_lines collab0 (some ⟨1, "o1", "e"⟩) false true
      = output_lines collab0 (some ⟨1, "o2", "e"⟩) false true
    ∧ output_lines collab0 (some ⟨0, "boring", "e"⟩) true true = []
    ∧ output_lines collab0 (some ⟨0, "", "e"⟩) false true = [] :=
  ⟨exec_output_stream_selection.1 collab0 "o" "e1" "e2" true,
   exec_output_stream_selection.2.1 collab0 1 "o1" "o2" "e" true (by decide),
   exec_output_stream_selection.2.2.1 collab0 ⟨0, "boring", "e"⟩ true rfl,
   exec_output_stream_selection.2.2.2 collab0 ⟨0, "", "e"⟩ false true rfl⟩

end CodexTui

namespace CodexTui

/-- Case-insensitive equality is equality of lowercased keys. -/
theorem eqic_iff (a b : String) :
    eq_ignore_ascii_case a b = true ↔ lowerKey a = lowerKey b := by
  simp [eq_ignore_ascii_case, lowerKey]

/-- The 14 registered spinner names are pairwise distinct ignoring case. -/
theorem spinner_names_pairwise_distinct :
    (spinners.ALL.map (fun t => lowerKey t.name)).Pairwise (· ≠ ·) := by
  decide

/-- In a registry whose lowercased names are pairwise distinct, `find?`
returns the registered spinner whose name matches case-insensitively. -/
theorem find_first_of_mem (l : List spinners.Spinner) (n : String)
    (s : spinners.Spinner)
    (hpw : (l.map (fun t => lowerKey t.name)).Pairwise (· ≠ ·))
    (hmem : s ∈ l) (heq : eq_ignore_ascii_case s.name n = true) :
    l.find? (fun t => eq_ignore_ascii_case t.name n) = some s := by
  induction l with
  | nil => cases hmem
  | cons t ts ih =>
    rw [List.map_cons, List.pairwise_cons] at hpw
    rcases List.mem_cons.mp hmem with hst | hs
    · subst hst
      simp [List.find?, heq]
    · have hne : lowerKey t.name ≠ lowerKey s.name :=
        hpw.1 _ (List.mem_map.mpr ⟨s, hs, rfl⟩)
      have hpt : eq_ignore_ascii_case t.name n = false := by
        by_contra hc
        have : eq_ignore_ascii_case t.name n = true := by
          revert hc
          cases eq_ignore_ascii_case t.name n <;> simp
        exact hne ((eqic_iff t.name n).mp this |>.trans
          ((eqic_iff s.name n).mp heq).symm)
      simp only [List.find?, hpt]
      exact ih hpw.2 hs

/-- Claim C10: the spinner lookup is total with a fixed fallback: a name
matching a registered spinner's name ignoring ASCII case returns that
spinner (in particular `get s.name = s` for each of the 14 registered
spinners), any other name returns the diamond spinner, and the diamond
spinner is the one named by `default_name`. -/
theorem spinners_get_registry :
    (∀ s ∈ spinners.ALL, spinners.get s.name = s)
    ∧ (∀ (n : String) (s : spinners.Spinner), s ∈ spinners.ALL →
        eq_ignore_ascii_case s.name n = true → spinners.get n = s)
    ∧ (∀ n : String,
        (∀ s ∈ spinners.ALL, eq_ignore_ascii_case s.name n = false) →
        spinners.get n = spinners.DIAMOND)
    ∧ spinners.get spinners.default_name = spinners.DIAMOND
    ∧ spinners.ALL.length = 14
    ∧ spinners.default_name = "diamond" := by
  have h2 : ∀ (n : String) (s : spinners.Spinner), s ∈ spinners.ALL →
      eq_ignore_ascii_case s.name n = true → spinners.get n = s := by
    intro n s hmem heq
    unfold spinners.get
    rw [find_first_of_mem spinners.ALL n s spinner_names_pairwise_distinct
      hmem heq]
  have h1 : ∀ s ∈ spinners.ALL, spinners.get s.name = s := by
    intro s hmem
    exact h2 s.name s hmem ((eqic_iff s.name s.name).mpr rfl)
  refine ⟨h1, h2, ?_, ?_, rfl, rfl⟩
  · intro n hall
    unfold spinners.get
    rw [List.find?_eq_none.mpr]
    intro s hs
    simp [hall s hs]
  · exact h1 spinners.DIAMOND (by decide)

/-- Witness for C10: an exact-name hit, a case-insensitive hit, and a miss
that falls back to the diamond spinner. -/
theorem spinners_get_registry_witness :
    spinners.get "clock" = spinners.CLOCK
    ∧ spinners.get "DOTS2" = spinners.DOTS2
    ∧ spinners.get "no-such-spinner" = spinners.DIAMOND :=
  ⟨spinners_get_registry.1 spinners.CLOCK (by decide),
   spinners_get_registry.2.1 "DOTS2" spinners.DOTS2 (by decide) (by decide),
   spinners_get_registry.2.2.1 "no-such-spinner" (by decide)⟩

end CodexTui

namespace CodexTui

/-- String append concatenates the character data. -/
theorem data_append (a b : String) : (a ++ b).data = a.data ++ b.data := by
  cases a
  cases b
  rfl

/-- The progress bar's characters are exactly `filled` filled glyphs followed
by `10 - filled` empty glyphs. -/
theorem plan_bar_chars (c t : Nat) :
    (spans_text (plan_bar c t)).data
      = List.replicate (plan_filled c t) '█'
        ++ List.replicate (10 - plan_filled c t) '░' := by
  rcases Nat.eq_zero_or_pos (plan_filled c t) with hf0 | hfpos
  · simp [plan_bar, spans_text, hf0, String.join, charRepeat, styledSpan]
  · by_cases he : 10 - plan_filled c t > 0
    · simp [plan_bar, spans_text, hfpos, he, String.join, data_append,
        charRepeat, styledSpan]
    · have he0 : 10 - plan_filled c t = 0 := by omega
      simp [plan_bar, spans_text, hfpos, he0, String.join, charRepeat,
        styledSpan]

/-- Claim C7: the plan progress bar at width 10 contains
`filled = total>0 ? (completed*10 + total/2)/total : 0` filled glyphs and
`10 - filled` empty glyphs; the first line of a plan-update cell is the
header carrying exactly this bar; and in particular `completed=3, total=10`
gives 3 filled glyphs while `completed=0, total=0` gives 0. -/
theorem plan_update_progress_bar (u : UpdatePlanArgs) (C : Collab) :
    countChar (spans_text (plan_bar (completed_count u.plan) u.plan.length)) '█'
      = plan_filled (completed_count u.plan) u.plan.length
    ∧ countChar (spans_text (plan_bar (completed_count u.plan) u.plan.length)) '░'
      = 10 - plan_filled (completed_count u.plan) u.plan.length
    ∧ (plain_lines C (new_plan_update u)).head?
      = some (plan_header_line (completed_count u.plan) u.plan.length)
    ∧ plan_filled 3 10 = 3
    ∧ plan_filled 0 0 = 0 := by
  refine ⟨?_, ?_, ?_, by decide, by decide⟩
  · show (spans_text (plan_bar (completed_count u.plan) u.plan.length)).data.count '█' = _
    rw [plan_bar_chars]
    simp [List.count_append, List.count_replicate]
  · show (spans_text (plan_bar (completed_count u.plan) u.plan.length)).data.count '░' = _
    rw [plan_bar_chars]
    simp [List.count_append, List.count_replicate]
  · simp [new_plan_update, plain_lines]

end CodexTui

namespace CodexTui

/-- When the image attempt returns a cell, it is the image cell variant. -/
theorem try_image_some_shape (C : Collab) (r : Except String CallToolResult)
    (cell : HistoryCell)
    (h : try_new_completed_mcp_tool_call_with_image_output C r = some cell) :
    ∃ img, cell = .CompletedMcpToolCallWithImageOutput img := by
  unfold try_new_completed_mcp_tool_call_with_image_output at h
  repeat' split at h
  all_goals simp_all
  exact ⟨_, h.symm⟩

/-- Claim C6: a successful tool result whose first content block is an image
surviving all three decode stages yields the dedicated image cell; a failure
of any stage, a non-image (or absent) first block, or a failed result
abandons the image path — the total function simply returns an ordinary
completed-tool-call cell. -/
theorem tool_call_image_pipeline (C : Collab) (num_cols : Nat)
    (inv : McpInvocation) (dur : Nat) (succ : Bool) :
    (∀ (data : String) (rest : List ContentBlock) (raw rd img : Bytes),
      C.b64_decode data = some raw → C.guess_format raw = some rd →
      C.raster_decode rd = some img →
      new_completed_mcp_tool_call C num_cols inv dur succ
          (.ok ⟨.ImageContent data :: rest⟩)
        = .CompletedMcpToolCallWithImageOutput img)
    ∧ (∀ r : Except String CallToolResult,
      try_new_completed_mcp_tool_call_with_image_output C r = none →
      ∃ v, new_completed_mcp_tool_call C num_cols inv dur succ r
        = .CompletedMcpToolCall v)
    ∧ (∀ (data : String) (rest : List ContentBlock), C.b64_decode data = none →
      try_new_completed_mcp_tool_call_with_image_output C
        (.ok ⟨.ImageContent data :: rest⟩) = none)
    ∧ (∀ (data : String) (rest : List ContentBlock) (raw : Bytes),
      C.b64_decode data = some raw → C.guess_format raw = none →
      try_new_completed_mcp_tool_call_with_image_output C
        (.ok ⟨.ImageContent data :: rest⟩) = none)
    ∧ (∀ (data : String) (rest : List ContentBlock) (raw rd : Bytes),
      C.b64_decode data = some raw → C.guess_format raw = some rd →
      C.raster_decode rd = none →
      try_new_completed_mcp_tool_call_with_image_output C
        (.ok ⟨.ImageContent data :: rest⟩) = none)
    ∧ (∀ msg : String,
      try_new_completed_mcp_tool_call_with_image_output C (.error msg) = none)
    ∧ (∀ content : List ContentBlock,
      (∀ d, content.head? ≠ some (.ImageContent d)) →
      try_new_completed_mcp_tool_call_with_image_output C (.ok ⟨content⟩)
        = none) := by
  refine ⟨?_, ?_, ?_, ?_, ?_, fun msg => rfl, ?_⟩
  · intro data rest raw rd img h1 h2 h3
    simp [new_completed_mcp_tool_call,
      try_new_completed_mcp_tool_call_with_image_output, h1, h2, h3]
  · intro r h
    cases r with
    | ok res =>
      exact ⟨⟨[tool_title_line C dur succ, format_mcp_invocation inv]
          ++ (if res.content.isEmpty then []
              else line_empty :: res.content.map (fun b =>
                lineStyled (tool_block_text C num_cols b) { fg := some .gray }))
          ++ [line_empty]⟩,
        by simp only [new_completed_mcp_tool_call, h]⟩
    | error e =>
      exact ⟨⟨[tool_title_line C dur succ, format_mcp_invocation inv]
          ++ [tool_error_line e]⟩,
        by simp only [new_completed_mcp_tool_call, h]⟩
  · intro data rest h1
    simp [try_new_completed_mcp_tool_call_with_image_output, h1]
  · intro data rest raw h1 h2
    simp [try_new_completed_mcp_tool_call_with_image_output, h1, h2]
  · intro data rest raw rd h1 h2 h3
    simp [try_new_completed_mcp_tool_call_with_image_output, h1, h2, h3]
  · intro content h
    cases content with
    | nil => rfl
    | cons b rest =>
      cases b with
      | ImageContent d => exact absurd rfl (h d)
      | TextContent t => rfl
      | AudioContent => rfl
      | EmbeddedResource res => rfl
      | ResourceLink uri => rfl

/-- Witness for C6: with a concrete pipeline, good data yields the image
cell and data failing base64 decode falls back to an ordinary cell. -/
theorem tool_call_image_pipeline_witness :
    new_completed_mcp_tool_call collabImg 80 inv0 5 true
        (.ok ⟨[.ImageContent "AAAA"]⟩)
      = .CompletedMcpToolCallWithImageOutput [0, 1]
    ∧ (∃ v, new_completed_mcp_tool_call collabImg 80 inv0 5 true
        (.ok ⟨[.ImageContent "bad!"]⟩) = .CompletedMcpToolCall v) :=
  ⟨(tool_call_image_pipeline collabImg 80 inv0 5 true).1 "AAAA" [] [0] [0]
      [0, 1] (by decide) rfl rfl,
   (tool_call_image_pipeline collabImg 80 inv0 5 true).2.1
      (.ok ⟨[.ImageContent "bad!"]⟩)
      ((tool_call_image_pipeline collabImg 80 inv0 5 true).2.2.1 "bad!" []
        (by decide))⟩

/-- Claim C8: on the non-image path each content block maps to exactly one
display line — an image block to "<image content>", an audio block to
"<audio content>", an embedded resource to "embedded resource: uri" taking
the uri from whichever representation is present, a resource link to
"link: uri" — and a failed tool call renders a single bold error line
carrying the failure message. -/
theorem completed_tool_call_block_rendering (C : Collab) (num_cols : Nat)
    (inv : McpInvocation) (dur : Nat) (succ : Bool) :
    (∀ content : List ContentBlock,
      try_new_completed_mcp_tool_call_with_image_output C (.ok ⟨content⟩)
        = none →
      content ≠ [] →
      new_completed_mcp_tool_call C num_cols inv dur succ (.ok ⟨content⟩)
        = .CompletedMcpToolCall ⟨
            [tool_title_line C dur succ, format_mcp_invocation inv]
            ++ (line_empty :: content.map (fun b =>
                lineStyled (tool_block_text C num_cols b) { fg := some .gray }))
            ++ [line_empty]⟩)
    ∧ (∀ d, tool_block_text C num_cols (.ImageContent d) = "<image content>")
    ∧ tool_block_text C num_cols .AudioContent = "<audio content>"
    ∧ (∀ uri, tool_block_text C num_cols
        (.EmbeddedResource (.TextResourceContents uri))
        = "embedded resource: " ++ uri)
    ∧ (∀ uri, tool_block_text C num_cols
        (.EmbeddedResource (.BlobResourceContents uri))
        = "embedded resource: " ++ uri)
    ∧ (∀ uri, tool_block_text C num_cols (.ResourceLink uri) = "link: " ++ uri)
    ∧ (∀ msg, new_completed_mcp_tool_call C num_cols inv dur succ (.error msg)
        = .CompletedMcpToolCall ⟨[tool_title_line C dur succ,
            format_mcp_invocation inv, tool_error_line msg]⟩) := by
  refine ⟨?_, fun d => rfl, rfl, fun uri => rfl, fun uri => rfl, fun uri => rfl,
    ?_⟩
  · intro content h hne
    simp only [new_completed_mcp_tool_call, h]
    have : content.isEmpty = false := by
      cases content with
      | nil => exact absurd rfl hne
      | cons b rest => rfl
    simp [this]
  · intro msg
    simp [new_completed_mcp_tool_call,
      try_new_completed_mcp_tool_call_with_image_output]

/-- Witness for C8: one of each non-text block kind rendered concretely. -/
theorem completed_tool_call_block_rendering_witness :
    new_completed_mcp_tool_call collab0 80 inv0 7 true
        (.ok ⟨[.AudioContent, .ImageContent "x",
               .EmbeddedResource (.TextResourceContents "u1"),
               .EmbeddedResource (.BlobResourceContents "u2"),
               .ResourceLink "u3"]⟩)
      = .CompletedMcpToolCall ⟨
          [tool_title_line collab0 7 true, format_mcp_invocation inv0]
          ++ (line_empty ::
              [lineStyled "<audio content>" { fg := some .gray },
               lineStyled "<image content>" { fg := some .gray },
               lineStyled "embedded resource: u1" { fg := some .gray },
               lineStyled "embedded resource: u2" { fg := some .gray },
               lineStyled "link: u3" { fg := some .gray }])
          ++ [line_empty]⟩ := by
  have h := (completed_tool_call_block_rendering collab0 80 inv0 7 true).1
    [.AudioContent, .ImageContent "x",
     .EmbeddedResource (.TextResourceContents "u1"),
     .EmbeddedResource (.BlobResourceContents "u2"),
     .ResourceLink "u3"] rfl (by decide)
  rw [h]
  rfl

end CodexTui

namespace CodexTui

/-- Appending to a list that ends blank still ends blank. -/
theorem endsWithBlank_append_right (xs ys : List Line)
    (h : endsWithBlank ys) : endsWithBlank (xs ++ ys) := by
  obtain ⟨l, hl, hb⟩ := h
  refine ⟨l, ?_, hb⟩
  have hne : ys ≠ [] := by
    intro he
    rw [he] at hl
    cases hl
  rw [List.getLast?_append_of_ne_nil _ hne]
  exact hl

/-- Counterexample to C4 as stated: a session-info event whose model matches
the configured model constructs a cell with an empty view, which has no
trailing blank line at all. -/
theorem session_info_empty_counterexample :
    plain_lines collab0 (new_session_info descs0 "gpt" "gpt" false) = []
    ∧ ¬ endsWithBlank
        (plain_lines collab0 (new_session_info descs0 "gpt" "gpt" false)) := by
  have h : plain_lines collab0 (new_session_info descs0 "gpt" "gpt" false)
      = [] := rfl
  refine ⟨h, ?_⟩
  rw [h]
  rintro ⟨l, hl, _⟩
  cases hl

/-- Claim C4 (amended): every constructed non-animated cell's line sequence
ends with a blank trailing line (not necessarily exactly one), except for
three constructions: a session-info event whose model matches the configured
model (empty view), a failed tool call (its error line is last), and
`new_text_line`, which emits the given line verbatim. -/
theorem non_animated_cells_end_blank :
    (∀ (C : Collab) (d : SlashDescs) (cm em : String) (first : Bool),
      first = true ∨ cm ≠ em →
      endsWithBlank (plain_lines C (new_session_info d cm em first)))
    ∧ (∀ (C : Collab) (msg : String),
      endsWithBlank (plain_lines C (new_user_prompt msg)))
    ∧ (∀ (C : Collab) (cmd : List String) (parsed : List ParsedCommand)
        (out : Option CommandOutput),
      endsWithBlank (plain_lines C (.Exec cmd parsed out)))
    ∧ (∀ (C : Collab) (inv : McpInvocation),
      endsWithBlank (plain_lines C (new_active_mcp_tool_call inv)))
    ∧ (∀ (C : Collab) (n : Nat) (inv : McpInvocation) (dur : Nat) (succ : Bool)
        (r : Except String CallToolResult) (res : CallToolResult),
      r = .ok res →
      endsWithBlank (plain_lines C
        (new_completed_mcp_tool_call C n inv dur succ r)))
    ∧ (∀ (C : Collab) (msg : String),
      endsWithBlank (plain_lines C (new_diff_output C msg)))
    ∧ (∀ (C : Collab) (effort : String),
      endsWithBlank (plain_lines C (new_reasoning_output effort)))
    ∧ (∀ (C : Collab) (lookup : String → String) (cwd sb : String)
        (auth : Option AuthInfo) (model prov : String)
        (usage : TokenUsageInfo),
      endsWithBlank (plain_lines C
        (new_status_output lookup cwd sb auth model prov usage)))
    ∧ (∀ C : Collab, endsWithBlank (plain_lines C new_prompts_output))
    ∧ (∀ (C : Collab) (msg : String),
      endsWithBlank (plain_lines C (new_error_event msg)))
    ∧ (∀ (C : Collab) (u : UpdatePlanArgs),
      endsWithBlank (plain_lines C (new_plan_update u)))
    ∧ (∀ (C : Collab) (et : PatchEventType) (changes : List (String × String)),
      endsWithBlank (plain_lines C (new_patch_event C et changes)))
    ∧ (∀ (C : Collab) (stderr : String),
      endsWithBlank (plain_lines C (new_patch_apply_failure C stderr)))
    ∧ (∀ (C : Collab) (l : Line), plain_lines C (new_text_line l) = [l]) := by
  refine ⟨?_, ?_, ?_, ?_, ?_, ?_, ?_, ?_, ?_, ?_, ?_, ?_, ?_, ?_⟩
  · intro C d cm em first h
    by_cases hf : first = true
    · subst hf
      exact ⟨_, rfl, rfl⟩
    · have hf' : first = false := by
        cases first
        · rfl
        · exact absurd rfl hf
      subst hf'
      rcases h with h | h
      · cases h
      · simp only [new_session_info, if_neg (by simp : ¬false = true),
          if_neg h]
        exact ⟨_, rfl, rfl⟩
  · intro C msg
    simp only [new_user_prompt, plain_lines]
    exact endsWithBlank_concat _ _ rfl
  · intro C cmd parsed out
    simp only [plain_lines]
    cases hb : parsed.isEmpty with
    | true =>
      simp only [exec_command_lines, hb, new_exec_command_generic]
      exact endsWithBlank_concat _ _ rfl
    | false =>
      simp only [exec_command_lines, hb, new_parsed_command]
      exact endsWithBlank_concat _ _ rfl
  · intro C inv
    exact ⟨_, rfl, rfl⟩
  · intro C n inv dur succ r res hr
    subst hr
    cases htry : try_new_completed_mcp_tool_call_with_image_output C (.ok res)
      with
    | none =>
      simp only [new_completed_mcp_tool_call, htry, plain_lines]
      exact endsWithBlank_concat _ _ rfl
    | some cell =>
      obtain ⟨img, hcell⟩ := try_image_some_shape C _ cell htry
      simp only [new_completed_mcp_tool_call, htry, hcell, plain_lines]
      exact ⟨_, rfl, rfl⟩
  · intro C msg
    simp only [new_diff_output, plain_lines]
    exact endsWithBlank_concat _ _ rfl
  · intro C effort
    exact ⟨_, rfl, rfl⟩
  · intro C lookup cwd sb auth model prov usage
    simp only [new_status_output, plain_lines]
    exact endsWithBlank_append_right _ _ ⟨_, rfl, rfl⟩
  · intro C
    exact ⟨_, rfl, rfl⟩
  · intro C msg
    exact ⟨_, rfl, rfl⟩
  · intro C u
    simp only [new_plan_update, plain_lines]
    exact endsWithBlank_concat _ _ rfl
  · intro C et changes
    cases et with
    | ApprovalRequest =>
      simp only [new_patch_event, plain_lines]
      exact endsWithBlank_concat _ _ rfl
    | ApplyBegin auto =>
      cases auto with
      | false => exact ⟨_, rfl, rfl⟩
      | true =>
        simp only [new_patch_event, plain_lines]
        exact endsWithBlank_concat _ _ rfl
  · intro C stderr
    simp only [new_patch_apply_failure, plain_lines]
    exact endsWithBlank_concat _ _ rfl
  · intro C l
    rfl

/-- Witness for C4 at concrete constructions. -/
theorem non_animated_cells_end_blank_witness :
    endsWithBlank (plain_lines collab0 (new_session_info descs0 "a" "b" false))
    ∧ endsWithBlank (plain_lines collab0
        (new_completed_mcp_tool_call collab0 1 inv0 1 false (.ok ⟨[]⟩))) :=
  ⟨non_animated_cells_end_blank.1 collab0 descs0 "a" "b" false
      (Or.inr (by decide)),
   non_animated_cells_end_blank.2.2.2.2.1 collab0 1 inv0 1 false
      (.ok ⟨[]⟩) ⟨[]⟩ rfl⟩

end CodexTui
